import Mathlib

/-!
Shallow embedding of `src/main.py` (AutoHnPostTg): a Telegram bot that
fetches Hacker News RSS feeds, translates titles via Gemini, and posts a
digest to a Telegram channel on a cron schedule.

External effects (HTTP fetch, Gemini call, Telegram post, wall clock,
environment variables) are passed in as explicit function arguments, so
every Python function becomes a total Lean function of its inputs plus
the outcomes of its external calls.
-/

namespace AutoHnPostTg

/-- A parsed RSS feed entry, as `feedparser` hands it to `fetch_news`.
`comments` and `summary` are optional because the Python code guards them
with `hasattr` / `getattr`. -/
structure FeedEntry where
  title : String
  link : String
  published : String
  comments : Option String
  summary : Option String
  deriving Repr, DecidableEq

/-- A news item dict as built inside `HackerNewsParser.fetch_news`. -/
structure NewsItem where
  title : String
  link : String
  published : String
  points : Int
  summary : String
  deriving Repr, DecidableEq

/-- Whether `p` is a leading segment of `s` (character lists). -/
def startsWith : List Char → List Char → Bool
  | [], _ => true
  | _ :: _, [] => false
  | p :: ps, c :: cs => p == c && startsWith ps cs

/-- Whether `pat` occurs contiguously inside `s` (character lists). -/
def hasSubstring (pat : List Char) : List Char → Bool
  | [] => startsWith pat []
  | c :: cs => startsWith pat (c :: cs) || hasSubstring pat cs

/-- Python's substring test `pat in s`. -/
def containsSubstr (s pat : String) : Bool :=
  hasSubstring pat.toList s.toList

/-- Splitter behind Python's `str.split()` with no argument: `acc` holds
the current (reversed) token; whitespace ends a token, and empty tokens
are dropped. -/
def splitWSAux : List Char → List Char → List (List Char)
  | acc, [] => if acc.isEmpty then [] else [acc.reverse]
  | acc, c :: cs =>
    if c.isWhitespace then
      if acc.isEmpty then splitWSAux [] cs else acc.reverse :: splitWSAux [] cs
    else splitWSAux (c :: acc) cs

/-- Python's `str.split()` with no argument: split on runs of whitespace,
dropping empty tokens. -/
def whitespaceTokens (s : String) : List (List Char) :=
  splitWSAux [] s.toList

/-- Digit value of a character, or `none`. -/
def digitVal (c : Char) : Option Nat :=
  if c.isDigit then some (c.toNat - 48) else none

/-- Accumulating decimal parser over a character list; fails on any
non-digit. -/
def parseNatAux : Nat → List Char → Option Nat
  | acc, [] => some acc
  | acc, c :: cs =>
    match digitVal c with
    | some d => parseNatAux (acc * 10 + d) cs
    | none => none

/-- Parse a non-empty all-digit token as a natural number. -/
def parseNatChars : List Char → Option Nat
  | [] => none
  | cs => parseNatAux 0 cs

/-- Python's `int(token)` on a whitespace-free token: optional sign, then
decimal digits; `none` models the `ValueError` the source catches. -/
def parseIntChars : List Char → Option Int
  | '-' :: rest => (parseNatChars rest).map (fun n => -(n : Int))
  | '+' :: rest => (parseNatChars rest).map (fun n => (n : Int))
  | cs => (parseNatChars cs).map (fun n => (n : Int))

/-- The `points` extraction in `fetch_news`:
`points = 0`; if the entry has a `comments` attribute containing the word
"points", try `int(entry.comments.split()[0])`, falling back to `0` on any
error (the bare `except` in the source covers both the `IndexError` on an
all-whitespace string and the `ValueError` on a non-numeric token). -/
def parsePoints (comments : Option String) : Int :=
  match comments with
  | none => 0
  | some c =>
    if containsSubstr c "points" then
      match whitespaceTokens c with
      | [] => 0
      | w :: _ => (parseIntChars w).getD 0
    else 0

/-- Building one news dict from a feed entry, as in the loop body of
`fetch_news` (summary truncated to 500 characters). -/
def entryToNewsItem (e : FeedEntry) : NewsItem :=
  { title := e.title
    link := e.link
    published := e.published
    points := parsePoints e.comments
    summary := String.mk ((e.summary.getD "").toList.take 500) }

/-- The comparison used by `sorted(news, key=lambda x: x['points'],
reverse=True)`: `a` may precede `b` when `a` has at least as many points. -/
def pointsGE (a b : NewsItem) : Prop := b.points ≤ a.points

instance : DecidableRel pointsGE := fun a b => Int.decLe b.points a.points

instance : IsTotal NewsItem pointsGE := ⟨fun a b => le_total b.points a.points⟩

instance : IsTrans NewsItem pointsGE := ⟨fun _ _ _ h1 h2 => le_trans h2 h1⟩

/-- Python's `sorted(..., key=lambda x: x['points'], reverse=True)`: a
stable sort putting higher point counts first.  `List.insertionSort` is
stable, so it agrees with CPython's stable sort. -/
def sortByPointsDesc (l : List NewsItem) : List NewsItem :=
  List.insertionSort pointsGE l

/-- `HackerNewsParser.fetch_news(url)`.  The whole body sits in a
`try/except` that returns `[]` on any error, so the HTTP-fetch-and-parse
step is an `Except`: on success it yields the feed entries, on failure an
error message.  On success the code takes the first 10 entries, builds
news dicts, and sorts them by points descending. -/
def fetch_news (result : Except String (List FeedEntry)) : List NewsItem :=
  match result with
  | .error _ => []
  | .ok entries => sortByPointsDesc ((entries.take 10).map entryToNewsItem)

/-- `Config.HN_SOURCES`. -/
def HN_SOURCES : List String :=
  ["https://hnrss.org/frontpage?points=100",
   "https://hnrss.org/best?points=200",
   "https://hnrss.org/newest?points=150"]

/-- The de-duplication loop in `get_top_stories`: walk the combined list,
keeping an item only when its link is not in the `seen_links` set built so
far. -/
def dedupByLinkAux : List String → List NewsItem → List NewsItem
  | _, [] => []
  | seen, item :: rest =>
    if item.link ∈ seen then dedupByLinkAux seen rest
    else item :: dedupByLinkAux (item.link :: seen) rest

/-- `get_top_stories`'s link de-duplication starting from an empty
`seen_links` set. -/
def dedupByLink (items : List NewsItem) : List NewsItem :=
  dedupByLinkAux [] items

/-- `HackerNewsParser.get_top_stories()`: fetch every source in
`HN_SOURCES`, concatenate, drop duplicate links, sort by points
descending, and keep the top 3.  `net` maps a source URL to the outcome
of its HTTP fetch + feed parse. -/
def get_top_stories (net : String → Except String (List FeedEntry)) :
    List NewsItem :=
  (sortByPointsDesc
    (dedupByLink ((HN_SOURCES.map (fun src => fetch_news (net src))).flatten))).take 3

/-- The f-string prompt built inside `GeminiTranslator.translate_to_russian`,
with the Python triple-quoted string's indentation kept verbatim. -/
def translationPrompt (text : String) : String :=
  "\n            Переведи следующий технический текст на русский язык.\n            Сохрани технические термины, но сделай текст понятным для русскоязычной аудитории.\n            Не добавляй лишних комментариев, только перевод:\n            \n            " ++ text ++ "\n            "

/-- Python's `str.strip()`: drop leading and trailing whitespace. -/
def stripStr (s : String) : String :=
  String.mk (((s.toList.dropWhile Char.isWhitespace).reverse.dropWhile
    Char.isWhitespace).reverse)

/-- `GeminiTranslator.translate_to_russian(text)`: call the Gemini backend
on the prompt; on success return `response.text.strip()`, on any raised
error (the `except Exception` branch) return the original `text`.
`backend` maps the prompt to the outcome of the Gemini call, where
`.error` stands for any exception (timeout, quota, malformed response). -/
def translate_to_russian (backend : String → Except String String)
    (text : String) : String :=
  match backend (translationPrompt text) with
  | .ok response => stripStr response
  | .error _ => text

/-- The JSON payload `TelegramPoster.send_message` posts to the Bot API. -/
structure SendRequest where
  chat_id : String
  text : String
  parse_mode : String
  disable_web_page_preview : Bool
  deriving Repr, DecidableEq

/-- The request dict built in `send_message`: the text is passed through
unchanged, with `parse_mode='HTML'` and previews disabled. -/
def buildSendRequest (channelId text : String) : SendRequest :=
  { chat_id := channelId
    text := text
    parse_mode := "HTML"
    disable_web_page_preview := true }

/-- `TelegramPoster.send_message(text)`: POST the request; return `True`
iff the response status is 200, `False` on any other status, and `False`
when the POST itself raises (the `except Exception` branch, modelled as
`.error`). -/
def send_message (channelId text : String)
    (post : SendRequest → Except String Nat) : Bool :=
  match post (buildSendRequest channelId text) with
  | .ok status => status == 200
  | .error _ => false

/-- One numbered entry of the digest, as appended in the loop of
`format_news_post` (`\x27` is the single quote around the href). -/
def formatEntry (idx : Nat) (item : NewsItem) (translation : String) : String :=
  "<b>" ++ toString idx ++ ". " ++ translation ++ "</b>\n" ++
  "💬 " ++ toString item.points ++ " очков\n" ++
  "🔗 <a href=\x27" ++ item.link ++ "\x27>Читать далее</a>\n\n"

/-- The `enumerate(zip(news_items, translated), 1)` loop of
`format_news_post`. -/
def formatEntries : Nat → List (NewsItem × String) → String
  | _, [] => ""
  | idx, (item, tr) :: rest => formatEntry idx item tr ++ formatEntries (idx + 1) rest

/-- `TelegramPoster.format_news_post(news_items, translated)`.
`currentTime` is `datetime.now().strftime("%H:%M")`, passed in explicitly. -/
def format_news_post (currentTime : String) (news_items : List NewsItem)
    (translated : List String) : String :=
  "🔥 <b>Топ технических новостей " ++ currentTime ++ " МСК</b>\n\n" ++
  formatEntries 1 (news_items.zip translated) ++
  "📡 <i>Автоматическая подборка от TechNewsBot</i>"

/-- The external world one pipeline run interacts with: the RSS fetches,
the Gemini backend, the Telegram Bot API, the wall clock, and the
configured channel id. -/
structure RunEnv where
  net : String → Except String (List FeedEntry)
  gemini : String → Except String String
  telegram : SendRequest → Except String Nat
  currentTime : String
  channelId : String

/-- What one `process_and_post_news` run did: the Telegram send requests
it issued, in order, and whether the final send reported success
(`False` also covers the early `return` when no news was fetched). -/
structure RunResult where
  sends : List SendRequest
  success : Bool
  deriving Repr, DecidableEq

/-- `TechNewsBot.process_and_post_news()`: fetch the top stories; if none,
return without posting; otherwise translate each title, format the digest,
and send it as a single message. -/
def process_and_post_news (env : RunEnv) : RunResult :=
  let news_items := get_top_stories env.net
  if news_items.isEmpty then { sends := [], success := false }
  else
    let translated_titles :=
      news_items.map (fun item => translate_to_russian env.gemini item.title)
    let post_text := format_news_post env.currentTime news_items translated_titles
    let ok := send_message env.channelId post_text env.telegram
    { sends := [buildSendRequest env.channelId post_text], success := ok }

/-- `process_and_post_news` keeps no state between runs (there is no seen
set anywhere in the program), so two consecutive runs over the same
environment — e.g. before and after a process restart with the feeds
unchanged — issue the concatenation of two identical send traces. -/
def runTwice (env : RunEnv) : List SendRequest :=
  (process_and_post_news env).sends ++ (process_and_post_news env).sends

/-- `Config.POST_TIMES`. -/
def POST_TIMES : List String := ["09:00", "12:00", "18:00"]

/-- `Config.TIMEZONE`. -/
def TIMEZONE : String := "Europe/Moscow"

/-- What happens at daemon startup, observably: cron jobs registered with
`scheduler.add_job`, the `scheduler.start()` call, and any immediate
invocation of `process_and_post_news`. -/
inductive StartupEvent where
  | addCronJob (hour minute : Nat) (jobId : String)
  | schedulerStart
  | pipelineRun
  deriving Repr, DecidableEq

/-- Python's `str.split(sep)` for a single-character separator, keeping
empty pieces. -/
def splitOnCharAux (sep : Char) : List Char → List Char → List (List Char)
  | acc, [] => [acc.reverse]
  | acc, c :: cs =>
    if c == sep then acc.reverse :: splitOnCharAux sep [] cs
    else splitOnCharAux sep (c :: acc) cs

/-- `hour, minute = map(int, time_str.split(':'))`.  Every entry of
`POST_TIMES` parses, so the `getD 0` defaults are never taken on the
program's own inputs. -/
def parseClock (s : String) : Nat × Nat :=
  match splitOnCharAux ':' [] s.toList with
  | [h, m] => ((parseNatChars h).getD 0, (parseNatChars m).getD 0)
  | _ => (0, 0)

/-- `TechNewsBot.setup_scheduler()`: register one cron job per entry of
`POST_TIMES`, with id `post_news_<time>`. -/
def setup_scheduler_events : List StartupEvent :=
  POST_TIMES.map (fun t =>
    .addCronJob (parseClock t).1 (parseClock t).2 ("post_news_" ++ t))

/-- The startup sequence of `TechNewsBot.run_forever()` (the path `main`
takes): `setup_scheduler()`, then `scheduler.start()`, then the
`while True: await asyncio.sleep(60)` loop, which performs no action.
`run_once` exists in the source but is never called from `main`. -/
def run_forever_startup_events : List StartupEvent :=
  setup_scheduler_events ++ [.schedulerStart]

/-- The `required_vars` list of the `__main__` block. -/
def required_vars : List String :=
  ["TELEGRAM_BOT_TOKEN", "TELEGRAM_CHANNEL_ID", "GEMINI_API_KEY"]

/-- Python's `not os.getenv(var)`: true when the variable is unset or set
to the empty string (both are falsy). -/
def envMissing (env : String → Option String) (v : String) : Bool :=
  match env v with
  | none => true
  | some s => s.isEmpty

/-- `missing_vars = [var for var in required_vars if not os.getenv(var)]`. -/
def missing_vars (env : String → Option String) : List String :=
  required_vars.filter (envMissing env)

/-- What the `__main__` block does before anything else runs: exit with a
code and a logged message, or proceed to `asyncio.run(main())`. -/
inductive MainOutcome where
  | exitWith (code : Nat) (message : String)
  | runBot
  deriving Repr, DecidableEq

/-- The error message logged when variables are missing. -/
def missingVarsMessage (env : String → Option String) : String :=
  "❌ Не заданы переменные окружения: " ++ String.intercalate ", " (missing_vars env)

/-- The `__main__` guard: if any required environment variable is missing,
log the message naming the missing variables and `exit(1)`; otherwise
start the bot (which sets up the scheduler). -/
def main_entry (env : String → Option String) : MainOutcome :=
  if (missing_vars env).isEmpty then .runBot
  else .exitWith 1 (missingVarsMessage env)

/-! ### Concrete fixtures -/

/-- A concrete frontpage feed entry used to exercise the pipeline. -/
def feedStoryA : FeedEntry :=
  { title := "Story A"
    link := "https://example.com/a"
    published := "Mon, 01 Jan 2024"
    comments := some "150 points"
    summary := some "An example story" }

/-- A network where the frontpage feed carries `feedStoryA` and the other
sources are empty. -/
def netStoryA : String → Except String (List FeedEntry) := fun src =>
  if src = "https://hnrss.org/frontpage?points=100" then Except.ok [feedStoryA]
  else Except.ok []

/-- An environment whose feeds do not change between runs: Gemini is down
(titles fall back to the original), Telegram accepts every message. -/
def envStoryA : RunEnv :=
  { net := netStoryA
    gemini := fun _ => Except.error "quota exceeded"
    telegram := fun _ => Except.ok 200
    currentTime := "09:00"
    channelId := "@technews" }

/-- 4200 copies of the letter `a`: a title longer than Telegram's
4096-character message limit on its own. -/
def longTitle : String := String.mk (List.replicate 4200 'a')

/-- A frontpage feed entry with the oversized title. -/
def feedStoryLong : FeedEntry :=
  { title := longTitle
    link := "https://example.com/long"
    published := "Tue, 02 Jan 2024"
    comments := some "300 points"
    summary := none }

/-- A network where the frontpage feed carries only the oversized story. -/
def netStoryLong : String → Except String (List FeedEntry) := fun src =>
  if src = "https://hnrss.org/frontpage?points=100" then Except.ok [feedStoryLong]
  else Except.ok []

/-- Environment for the oversized-story run. -/
def envStoryLong : RunEnv :=
  { net := netStoryLong
    gemini := fun _ => Except.error "quota exceeded"
    telegram := fun _ => Except.ok 200
    currentTime := "12:00"
    channelId := "@technews" }

/-- The single news item the oversized-story feed produces. -/
def itemLong : NewsItem :=
  { title := longTitle
    link := "https://example.com/long"
    published := "Tue, 02 Jan 2024"
    points := 300
    summary := "" }

/-- The digest text the oversized-story run sends. -/
def postTextLong : String := format_news_post "12:00" [itemLong] [longTitle]

/-- A second small fixture, used to witness the verbatim-send theorem. -/
def feedStoryB : FeedEntry :=
  { title := "Story B"
    link := "https://example.com/b"
    published := "Wed, 03 Jan 2024"
    comments := some "120 points"
    summary := none }

/-- Network carrying only `feedStoryB` on the best-feed. -/
def netStoryB : String → Except String (List FeedEntry) := fun src =>
  if src = "https://hnrss.org/best?points=200" then Except.ok [feedStoryB]
  else Except.ok []

/-- Environment for the `feedStoryB` run. -/
def envStoryB : RunEnv :=
  { net := netStoryB
    gemini := fun _ => Except.error "timeout"
    telegram := fun _ => Except.ok 200
    currentTime := "18:00"
    channelId := "@technews" }

/-- The digest text the `feedStoryB` run sends. -/
def postTextB : String :=
  format_news_post "18:00" (get_top_stories netStoryB)
    ((get_top_stories netStoryB).map
      (fun item => translate_to_russian (fun _ => Except.error "timeout") item.title))

/-! ### Helper lemmas -/

lemma sorted_points_sortByPointsDesc (l : List NewsItem) :
    List.Sorted (fun a b : Int => a ≥ b) ((sortByPointsDesc l).map NewsItem.points) :=
  List.Pairwise.map NewsItem.points (fun _ _ h => h)
    (List.sorted_insertionSort pointsGE l)

lemma sorted_points_fetch_news (r : Except String (List FeedEntry)) :
    List.Sorted (fun a b : Int => a ≥ b) ((fetch_news r).map NewsItem.points) := by
  cases r with
  | error e => simp [fetch_news]
  | ok entries => exact sorted_points_sortByPointsDesc _

lemma sorted_points_get_top_stories (net : String → Except String (List FeedEntry)) :
    List.Sorted (fun a b : Int => a ≥ b) ((get_top_stories net).map NewsItem.points) := by
  unfold get_top_stories
  rw [List.map_take]
  exact List.Pairwise.sublist (List.take_sublist 3 _) (sorted_points_sortByPointsDesc _)

lemma dedupByLinkAux_links (items : List NewsItem) : ∀ seen : List String,
    ((dedupByLinkAux seen items).map NewsItem.link).Nodup ∧
    ∀ x ∈ (dedupByLinkAux seen items).map NewsItem.link, x ∉ seen := by
  induction items with
  | nil => intro seen; simp [dedupByLinkAux]
  | cons item rest ih =>
    intro seen
    by_cases h : item.link ∈ seen
    · constructor
      · simpa [dedupByLinkAux, h] using (ih seen).1
      · intro x hx
        exact (ih seen).2 x (by simpa [dedupByLinkAux, h] using hx)
    · have ihc := ih (item.link :: seen)
      constructor
      · simp only [dedupByLinkAux, if_neg h, List.map_cons, List.nodup_cons]
        refine ⟨fun hmem => ?_, ihc.1⟩
        exact (ihc.2 item.link hmem) (List.mem_cons_self _ _)
      · intro x hx
        simp only [dedupByLinkAux, if_neg h, List.map_cons, List.mem_cons] at hx
        cases hx with
        | inl he => exact he ▸ h
        | inr hm => exact fun hs => (ihc.2 x hm) (List.mem_cons_of_mem _ hs)

lemma nodup_links_dedupByLink (items : List NewsItem) :
    ((dedupByLink items).map NewsItem.link).Nodup :=
  (dedupByLinkAux_links items []).1

lemma nodup_links_sortByPointsDesc (l : List NewsItem)
    (h : (l.map NewsItem.link).Nodup) :
    ((sortByPointsDesc l).map NewsItem.link).Nodup :=
  (((List.perm_insertionSort pointsGE l).map NewsItem.link).nodup_iff).mpr h

/-! ### Claim theorems -/

/-- Claim C1 (code bug): the specification's invariant — an identifier in
the durable SeenSet is never re-published — is right about the intent
(§1: "avoiding re-posting the same story twice"), but the program keeps no
seen set at all: `process_and_post_news` is a pure function of the feeds,
so two runs over an unchanged frontpage feed (e.g. before and after a
restart) both publish the very same story.  This theorem evaluates the
code at that failing input: both of the two consecutive runs send a
message containing the story's link, and each run reports success. -/
theorem story_republished_on_second_run :
    (runTwice envStoryA).map
        (fun r => containsSubstr r.text "https://example.com/a") = [true, true] ∧
    (process_and_post_news envStoryA).success = true := by
  decide

/-- Claim C2 (counterexample): contrary to the claim, no pipeline run is
triggered at daemon startup — the startup sequence of `run_forever`
contains no invocation of `process_and_post_news`, only the cron-job
registrations and the `scheduler.start()` call. -/
theorem no_pipeline_run_at_startup :
    run_forever_startup_events.count StartupEvent.pipelineRun = 0 := by
  decide

/-- Claim C2 (amended): in daemon mode the process registers exactly the
three daily cron triggers 09:00, 12:00 and 18:00 (Europe/Moscow) and then
starts the scheduler; no run is triggered immediately at process start
(`run_once` exists but `main` never calls it). -/
theorem startup_registers_cron_jobs_only :
    run_forever_startup_events =
      [StartupEvent.addCronJob 9 0 "post_news_09:00",
       StartupEvent.addCronJob 12 0 "post_news_12:00",
       StartupEvent.addCronJob 18 0 "post_news_18:00",
       StartupEvent.schedulerStart] ∧
    TIMEZONE = "Europe/Moscow" := by
  decide

/-- Claim C3: when the Gemini backend fails on the prompt built for an
input text — timeout, quota, malformed response, any raised error — the
translate operation returns exactly the original input text; being a total
function of the backend outcome, it returns normally on every input and
never propagates an exception. -/
theorem translate_returns_input_on_backend_failure
    (backend : String → Except String String) (text err : String)
    (h : backend (translationPrompt text) = Except.error err) :
    translate_to_russian backend text = text := by
  unfold translate_to_russian
  rw [h]

/-- Witness for C3 at a concrete failing backend and input. -/
theorem translate_returns_input_on_backend_failure_witness :
    translate_to_russian (fun _ => Except.error "504 deadline exceeded")
      "Show HN: a fast CRDT library" = "Show HN: a fast CRDT library" :=
  translate_returns_input_on_backend_failure _ _ "504 deadline exceeded" rfl

/-- Claim C4 (counterexample): the claim says an over-long rendered message
is truncated before sending, but the code has no truncation anywhere: for
a story whose title alone is 4200 characters, the single send request of
the run carries the full rendered digest, whose length exceeds Telegram's
4096-character limit. -/
theorem oversized_message_sent_untruncated :
    (process_and_post_news envStoryLong).sends.map SendRequest.text = [postTextLong] ∧
    4096 < postTextLong.length := by
  refine ⟨rfl, ?_⟩
  have hlen : longTitle.length = 4200 := by
    show (List.replicate 4200 'a').length = 4200
    exact List.length_replicate 4200 'a'
  simp only [postTextLong, format_news_post, formatEntries, formatEntry, itemLong,
    List.zip_cons_cons, List.zip_nil_right, String.length_append]
  omega

/-- Claim C4 (amended): no truncation exists — every request handed to the
Telegram API carries the rendered digest verbatim, whatever its length:
the text of each send request of a run equals `format_news_post` applied
to the fetched stories and their translated titles. -/
theorem message_sent_verbatim_no_truncation (env : RunEnv) (req : SendRequest)
    (h : req ∈ (process_and_post_news env).sends) :
    req.text = format_news_post env.currentTime (get_top_stories env.net)
      ((get_top_stories env.net).map
        (fun item => translate_to_russian env.gemini item.title)) := by
  unfold process_and_post_news at h
  by_cases hne : (get_top_stories env.net).isEmpty
  · simp [hne] at h
  · simp [hne] at h
    subst h
    rfl

set_option maxRecDepth 4000 in
/-- Witness for C4's amended theorem at the concrete `feedStoryB` run. -/
theorem message_sent_verbatim_no_truncation_witness :
    (buildSendRequest "@technews" postTextB).text =
      format_news_post envStoryB.currentTime (get_top_stories envStoryB.net)
        ((get_top_stories envStoryB.net).map
          (fun item => translate_to_russian envStoryB.gemini item.title)) :=
  message_sent_verbatim_no_truncation envStoryB
    (buildSendRequest "@technews" postTextB) (by decide)

/-- Claim C5: a single run issues at most one publish attempt — the code
bundles all selected stories into one digest message, so the number of
`send_message` calls per run is at most one, and hence never exceeds the
per-run post quota. -/
theorem publish_attempts_at_most_one (env : RunEnv) :
    (process_and_post_news env).sends.length ≤ 1 := by
  unfold process_and_post_news
  by_cases h : (get_top_stories env.net).isEmpty <;> simp [h]

/-- Claim C6: every fetch of candidates returns stories ordered by the
source's points signal, highest first — both per-source (`fetch_news`) and
for the combined top list (`get_top_stories`), the sequence of points is
non-increasing. -/
theorem candidates_ordered_by_points_desc :
    (∀ r, List.Sorted (fun a b : Int => a ≥ b) ((fetch_news r).map NewsItem.points)) ∧
    (∀ net, List.Sorted (fun a b : Int => a ≥ b)
      ((get_top_stories net).map NewsItem.points)) :=
  ⟨sorted_points_fetch_news, sorted_points_get_top_stories⟩

/-- Claim C7: when the whole-source fetch or parse fails, `fetch_news`
returns the empty list; as a total function of the fetch outcome it
propagates no exception to its caller. -/
theorem fetch_news_returns_empty_on_failure (msg : String) :
    fetch_news (Except.error msg) = [] := rfl

/-- Claim C8: the publish operation returns `true` exactly when the
destination answers with status 200; any other status yields `false`, and
a transport error (the `.error` outcome) also yields `false` — as a total
function it never raises. -/
theorem send_message_success_iff_status_200 (channelId text : String)
    (post : SendRequest → Except String Nat) :
    send_message channelId text post = true ↔
      post (buildSendRequest channelId text) = Except.ok 200 := by
  unfold send_message
  cases h : post (buildSendRequest channelId text) with
  | ok s => simp
  | error e => simp

/-- Claim C9: if any required environment variable (bot token, channel id,
Gemini key) is unset or empty at startup, the `__main__` guard exits with
code 1 and the non-empty message naming the missing variables, and the bot
— hence the scheduler — is never started. -/
theorem missing_env_var_exits_before_scheduler
    (env : String → Option String) (v : String)
    (hv : v ∈ required_vars) (hmiss : envMissing env v = true) :
    main_entry env = MainOutcome.exitWith 1 (missingVarsMessage env) ∧
    main_entry env ≠ MainOutcome.runBot ∧
    0 < (missingVarsMessage env).length := by
  have hmem : v ∈ missing_vars env := List.mem_filter.mpr ⟨hv, hmiss⟩
  have hne : (missing_vars env).isEmpty = false := by
    cases hl : missing_vars env with
    | nil => rw [hl] at hmem; cases hmem
    | cons a l => rfl
  have hhead : 0 < ("❌ Не заданы переменные окружения: ").length := by decide
  refine ⟨by simp [main_entry, hne], by simp [main_entry, hne], ?_⟩
  simp only [missingVarsMessage, String.length_append]
  omega

/-- Witness for C9 with every environment variable unset. -/
theorem missing_env_var_exits_before_scheduler_witness :
    main_entry (fun _ => none) =
      MainOutcome.exitWith 1 (missingVarsMessage (fun _ => none)) ∧
    main_entry (fun _ => none) ≠ MainOutcome.runBot ∧
    0 < (missingVarsMessage (fun _ => none)).length :=
  missing_env_var_exits_before_scheduler (fun _ => none) "GEMINI_API_KEY"
    (by decide) rfl

/-- Claim C10: the combined top-story list of a run holds at most 3 items,
and the link values of its items are pairwise distinct — the de-duplication
pass removes every repeated link before the final sort and `take 3`. -/
theorem top_stories_at_most_three_distinct_links
    (net : String → Except String (List FeedEntry)) :
    (get_top_stories net).length ≤ 3 ∧
    ((get_top_stories net).map NewsItem.link).Nodup := by
  constructor
  · unfold get_top_stories
    exact List.length_take_le 3 _
  · unfold get_top_stories
    rw [List.map_take]
    exact List.Nodup.sublist (List.take_sublist 3 _)
      (nodup_links_sortByPointsDesc _ (nodup_links_dedupByLink _))

end AutoHnPostTg
